import Mathlib

/-!
Shallow embedding of the market-scanning pipeline of this repository
(src/utils/market_scanner.py and the alert-store usage in
src/modules/smart_markets.py), together with theorems settling the
specification claims about it.

Python strings are modelled as Lean `String`; Python `in` on strings is
substring containment; `.lower()` is `String.toLower` (all literals involved
are ASCII).  External calls (the Google custom-search service and the OpenAI
model) are modelled as oracles passed in as arguments: a search oracle maps a
query string to either an error or a list of raw result items, and a model
response is either a failure (provider error, or `json.loads` raising on a
malformed body) or a parsed list of insight objects.  Machine floats carry no
arithmetic in this code path (scores are only copied), so they are modelled
as rationals.
-/

/-- Python `needle in hay` prefix step on character lists. -/
def charsBeginWith : List Char → List Char → Bool
  | [], _ => true
  | _ :: _, [] => false
  | a :: as, b :: bs => a = b && charsBeginWith as bs

/-- Python `needle in hay` on character lists: substring containment. -/
def charsContain (needle : List Char) : List Char → Bool
  | [] => needle.isEmpty
  | b :: bs => charsBeginWith needle (b :: bs) || charsContain needle bs

/-- Python `needle in hay` for strings (substring containment). -/
def pyIn (needle hay : String) : Bool :=
  charsContain needle.toList hay.toList

/-- Python `s.lower()` (all text this code lowercases is ASCII). -/
def pyLower (s : String) : String := ⟨s.data.map Char.toLower⟩

/-- Python `s[:n]`: the first `n` characters of `s`. -/
def pyTake (s : String) (n : Nat) : String := ⟨s.data.take n⟩

/-- A Python dict with string keys and string values, as used in the
search-result `pagemap` metadata blocks. -/
abbrev PyDict := List (String × String)

/-- `d.get(k)` on a string-valued dict. -/
def dictGet (d : PyDict) (k : String) : Option String :=
  (d.find? (fun p => p.1 = k)).map (·.2)

/-- Python truthiness of an optional string: `None` and `""` are falsy. -/
def truthyStr : Option String → Option String
  | some s => if s = "" then none else some s
  | none => none

/-- The `pagemap` metadata block of a raw search item
(`market_scanner.py:207-224`).  The `newsarticle`/`article`/`webpage`
sections, when present, are nonempty lists in the provider's responses; they
are modelled by their first dict (`pagemap[source][0]`). -/
structure PageMap where
  metatags : Option (List PyDict) := none
  newsarticle : Option PyDict := none
  article : Option PyDict := none
  webpage : Option PyDict := none
deriving Repr, DecidableEq, Inhabited

/-- One raw item of a Google custom-search response, with the fields the
scanner reads (`item.get('title','')`, `item.get('link','')`,
`item.get('snippet','')`, `item.get('displayLink','')`, `item.get('pagemap',
hole)`). -/
structure RawItem where
  title : String := ""
  link : String := ""
  snippet : String := ""
  displayLink : String := ""
  pagemap : PageMap := {}
deriving Repr, DecidableEq, Inhabited

/-- One normalized search hit (`market_scanner.py:159-167`). -/
structure SearchHit where
  title : String
  url : String
  snippet : String
  source : String
  date : String
  query : String
  content : String
deriving Repr, DecidableEq, Inhabited

/-- The per-invocation scan configuration, with the keys the scanner reads.
A missing or Python-falsy entry is modelled by the empty string / empty
list (the code guards every read with `'k' in config and config['k']` or
uses `config.get`). -/
structure ScanConfig where
  geo_focus : String := ""
  sub_sectors : List String := []
  categories : List String := []
  keywords : String := ""
  geographic_scope : List String := ["UK"]
  time_range : String := "Last 6 months"
deriving Repr, DecidableEq, Inhabited

/-- A contextual trigger (`st.session_state.contextual_trigger_data`): a dict
with `type`, `name` and `category` keys.  The only trigger kind defined
anywhere in the repository — and the only one the query builder recognizes —
is `'sourcing_package'` (`market_scanner.py:71`). -/
structure Trigger where
  type : String
  name : String
  category : String
deriving Repr, DecidableEq, Inhabited

/-- UK domain suffix tokens (`market_scanner.py:188`). -/
def uk_domains : List String := [".gov.uk", ".ac.uk", ".co.uk", ".org.uk", ".nhs.uk"]

/-- UK keyword tokens (`market_scanner.py:193`). -/
def uk_keywords : List String :=
  ["united kingdom", "uk", "britain", "england", "wales", "scotland", "ofwat", "defra"]

/-- Non-UK exclusion tokens (`market_scanner.py:198`). -/
def non_uk_indicators : List String :=
  ["usa", "united states", "colorado", "california", ".edu"]

/-- `MarketScanner._is_uk_relevant` (`market_scanner.py:179-202`): decide
whether a raw search item is relevant to the geographic scope. -/
def is_uk_relevant (item : RawItem) (geographic_scope : List String) : Bool :=
  if !(geographic_scope.contains "UK") then
    true
  else
    let url := pyLower item.link
    let title_snippet := pyLower (item.title ++ " " ++ item.snippet)
    if uk_domains.any (fun domain => pyIn domain url) then
      true
    else if uk_keywords.any (fun keyword => pyIn keyword title_snippet) then
      true
    else if non_uk_indicators.any
        (fun indicator => pyIn indicator url || pyIn indicator title_snippet) then
      false
    else
      true

/-- The metatag date fields probed in order (`market_scanner.py:212`). -/
def date_fields : List String :=
  ["article:published_time", "date", "pubdate", "last-modified"]

/-- The metatags pass of `_extract_date_from_result`: Python iterates the
date fields over `metatags[0]` when the metatags list is truthy, returning
the first truthy value. -/
def firstMetaDate : List PyDict → Option String
  | [] => none
  | d :: _ => date_fields.findSome? (fun f => truthyStr (dictGet d f))

/-- The per-section pass of `_extract_date_from_result`:
`pagemap[source][0].get('datepublished') or pagemap[source][0].get('datemodified')`. -/
def sectionDate : Option PyDict → Option String
  | none => none
  | some d => (truthyStr (dictGet d "datepublished")).orElse
      (fun _ => truthyStr (dictGet d "datemodified"))

/-- `MarketScanner._extract_date_from_result` (`market_scanner.py:204-225`):
best-effort date extraction, with sentinel `"Recent"` when nothing is found.
The default for a missing metatags key is `[hole]`, a one-element list whose
dict is empty. -/
def extract_date_from_result (item : RawItem) : String :=
  let metatags := item.pagemap.metatags.getD [([] : PyDict)]
  match firstMetaDate metatags with
  | some d => d
  | none =>
    match ((sectionDate item.pagemap.newsarticle).orElse
        (fun _ => sectionDate item.pagemap.article)).orElse
        (fun _ => sectionDate item.pagemap.webpage) with
    | some d => d
    | none => "Recent"

/-- Normalization of one accepted raw item into a `SearchHit`
(`market_scanner.py:159-167`); the snippet doubles as content (no scraping). -/
def normalizeHit (query : String) (item : RawItem) : SearchHit :=
  { title := item.title
    url := item.link
    snippet := item.snippet
    source := item.displayLink
    date := extract_date_from_result item
    query := query
    content := item.snippet }

/-- Query enhancement for the UK scope (`market_scanner.py:132-139`). -/
def enhancedQuery (geographic_scope : List String) (query : String) : String :=
  if geographic_scope.contains "UK" then
    query ++ " (site:gov.uk OR site:ac.uk OR site:co.uk) \"United Kingdom\" OR \"UK\""
  else
    query

/-- The body of the per-query loop of `execute_google_search`
(`market_scanner.py:129-175`): a provider error (`HttpError`) or any other
exception on one query is caught and reported, leaving the accumulator
unchanged; on success the relevant items are normalized and appended.  The
search oracle stands for `self.google_service.cse().list(...).execute()`; an
absent `'items'` key is the oracle returning `ok []`.  The date-restriction
parameter, the `gl`/`hl` hints and the inter-call `time.sleep(1.0)` shape the
request and its pacing only, not the returned data. -/
def searchStep (geographic_scope : List String)
    (oracle : String → Except String (List RawItem))
    (acc : List SearchHit) (query : String) : List SearchHit :=
  match oracle (enhancedQuery geographic_scope query) with
  | .error _ => acc
  | .ok items =>
    acc ++ (items.filter (fun item => is_uk_relevant item geographic_scope)).map
      (normalizeHit query)

/-- `MarketScanner.execute_google_search` (`market_scanner.py:116-177`). -/
def execute_google_search (queries : List String) (config : ScanConfig)
    (oracle : String → Except String (List RawItem)) : List SearchHit :=
  queries.foldl (searchStep config.geographic_scope oracle) []

/-- The configuration components gathered by `construct_search_queries`
(`market_scanner.py:79-98`), including the unconditional built-assets context
terms appended at line 98. -/
def base_components (config : ScanConfig) (refinement_keywords : String) : List String :=
  (if config.geo_focus = "" then [] else [config.geo_focus])
    ++ config.sub_sectors
    ++ config.categories
    ++ (if config.keywords = "" then [] else [config.keywords])
    ++ (if refinement_keywords = "" then [] else [refinement_keywords])
    ++ ["built assets", "construction", "infrastructure"]

/-- The non-trigger path of `construct_search_queries`
(`market_scanner.py:79-114`): main query from the first six components, two
variations when more than three components, the default query when there are
none, capped at three queries. -/
def standingQueries (config : ScanConfig) (refinement_keywords : String) : List String :=
  let bc := base_components config refinement_keywords
  let queries :=
    if bc.isEmpty then
      ["UK built assets construction market trends 2024"]
    else
      let main_query := String.intercalate " " (bc.take 6)
      if bc.length > 3 then
        [main_query,
         String.intercalate " " [bc.getD 0 "", bc.getD 1 "", "market analysis", "2024"],
         String.intercalate " " [bc.getD 0 "", "procurement", "suppliers", "trends"]]
      else
        [main_query]
  queries.take 3

/-- `MarketScanner.construct_search_queries` (`market_scanner.py:62-114`).
The contextual-trigger session slot is threaded explicitly: the result pairs
the query list with the trigger slot after the call (the code sets
`st.session_state.contextual_trigger_data = None` when it consumes a
sourcing-package trigger, and leaves the slot untouched otherwise). -/
def construct_search_queries (trigger : Option Trigger) (config : ScanConfig)
    (refinement_keywords : String) : List String × Option Trigger :=
  match trigger with
  | some t =>
    if t.type = "sourcing_package" then
      ([t.name ++ " " ++ t.category ++ " market trends suppliers UK"], none)
    else
      (standingQueries config refinement_keywords, some t)
  | none => (standingQueries config refinement_keywords, none)

/-- One insight object of the model's parsed JSON response: every field is
optional (the code reads each with `insight.get(key, default)`).  The schema
types are those the prompt requests; the relevance score is a number. -/
structure RawInsight where
  title : Option String := none
  category : Option String := none
  impact_level : Option String := none
  summary : Option String := none
  insights : Option (List String) := none
  recommended_actions : Option (List String) := none
  suppliers_mentioned : Option (List String) := none
  relevance_score : Option ℚ := none
deriving Repr, DecidableEq, Inhabited

/-- The outcome of the one model call of `analyze_snippets_with_openai`:
`failure` is any exception caught at `market_scanner.py:352` (provider
error, or `json.loads` raising on a malformed body); `success` is a parsed
body, whose `insights` list is empty when the content is empty or the key is
absent (`result.get('insights', [])`). -/
inductive ModelResponse where
  | failure
  | success (insights : List RawInsight)
deriving Repr, DecidableEq

/-- One structured alert record (`market_scanner.py:335-349` and `356-370`). -/
structure AlertRecord where
  id : String
  title : String
  category : String
  impact_level : String
  summary : String
  insights : List String
  recommended_actions : List String
  suppliers_mentioned : List String
  relevance_score : ℚ
  source : String
  url : String
  timestamp : String
  intelligence_type : String
deriving Repr, DecidableEq, Inhabited

/-- The success-path record for the `i`-th insight
(`market_scanner.py:330-350`): fields come from the insight with the coded
defaults, provenance fields from the hit at index `i mod len`
(`snippet_data[i % len(snippet_data)] if snippet_data else hole`, whose
`.get` defaults apply when the hit list is empty).  `now` is `int(time.time())`. -/
def processInsight (now : Nat) (snippet_data : List SearchHit) (i : Nat)
    (insight : RawInsight) : AlertRecord :=
  let source_data : Option SearchHit := snippet_data.get? (i % snippet_data.length)
  { id := "insight_" ++ toString now ++ "_" ++ toString i
    title := insight.title.getD ("Market Intelligence #" ++ toString (i + 1))
    category := insight.category.getD "Market Trends"
    impact_level := insight.impact_level.getD "Medium"
    summary := insight.summary.getD ""
    insights := insight.insights.getD []
    recommended_actions := insight.recommended_actions.getD []
    suppliers_mentioned := insight.suppliers_mentioned.getD []
    relevance_score := insight.relevance_score.getD (7 / 10)
    source := (source_data.map (·.source)).getD "Market Intelligence"
    url := (source_data.map (·.url)).getD ""
    timestamp := (source_data.map (·.date)).getD "Recent"
    intelligence_type := insight.category.getD "Market Trends" }

/-- The fallback record for the `i`-th input hit (`market_scanner.py:355-371`):
summary is the snippet content truncated to 200 characters, impact level
`"Medium"`, relevance score `0.6`. -/
def fallbackRecord (now : Nat) (i : Nat) (item : SearchHit) : AlertRecord :=
  { id := "fallback_" ++ toString now ++ "_" ++ toString i
    title := item.title
    category := "Market Trends"
    impact_level := "Medium"
    summary := pyTake item.content 200 ++ "..."
    insights := ["Market information available"]
    recommended_actions := ["Review detailed source information"]
    suppliers_mentioned := []
    relevance_score := 3 / 5
    source := item.source
    url := item.url
    timestamp := item.date
    intelligence_type := "Market Trends" }

/-- `MarketScanner.analyze_snippets_with_openai` (`market_scanner.py:250-373`)
after the one model call, as a function of the call's outcome.  The scan
configuration shapes only the prompt sent to the model (supplier focus and
requested category enumeration), never the mapping from response to records,
so it does not appear as an argument.  On failure, one fallback record per
input hit; on success, one record per returned insight. -/
def analyze_snippets_with_openai (now : Nat) (snippet_data : List SearchHit)
    (response : ModelResponse) : List AlertRecord :=
  match response with
  | .failure => snippet_data.enum.map (fun p => fallbackRecord now p.1 p.2)
  | .success insights => insights.enum.map (fun p => processInsight now snippet_data p.1 p.2)

/-- The session key for a market category's alerts
(`smart_markets.py:751` and `smart_markets.py:358`). -/
def alertsKey (category : String) : String := "market_alerts_" ++ category

/-- The session-state alert store: the string-keyed session dict, restricted
to its alert values. -/
def SessionAlerts : Type := String → Option (List AlertRecord)

/-- `st.session_state[alerts_key] = analyzed_results`
(`smart_markets.py:750-752`): plain dict assignment, overwriting. -/
def storeAlerts (s : SessionAlerts) (category : String)
    (records : List AlertRecord) : SessionAlerts :=
  fun k => if k = alertsKey category then some records else s k

/-- The read side (`smart_markets.py:358-361`): the view reads
`st.session_state[alerts_key]` when the key is present. -/
def readAlerts (s : SessionAlerts) (category : String) : Option (List AlertRecord) :=
  s (alertsKey category)

/-! ## Helper lemmas -/

/-- Mapping an index-independent projection over an enumerated map forgets
the indices. -/
lemma enumFrom_map_map {α β γ : Type _} (f : Nat → α → β) (p : β → γ) (g : α → γ)
    (hpf : ∀ n a, p (f n a) = g a) :
    ∀ (l : List α) (n : Nat),
      ((List.enumFrom n l).map (fun q => f q.1 q.2)).map p = l.map g
  | [], _ => rfl
  | a :: as, n => by
    simp only [List.enumFrom, List.map_cons, hpf, List.map]
    exact congrArg _ (enumFrom_map_map f p g hpf as (n + 1))

/-- Indexing into an enumerated map. -/
lemma enumFrom_map_get? {α β : Type _} (f : Nat → α → β) :
    ∀ (l : List α) (n i : Nat),
      ((List.enumFrom n l).map (fun q => f q.1 q.2)).get? i
        = (l.get? i).map (fun a => f (n + i) a)
  | [], _, _ => rfl
  | _ :: _, _, 0 => rfl
  | a :: as, n, (i + 1) => by
    have ih := enumFrom_map_get? f as (n + 1) i
    have harith : n + 1 + i = n + (i + 1) := by omega
    rw [harith] at ih
    exact ih

/-- The length of an enumerated map. -/
lemma enumFrom_map_length {α β : Type _} (f : Nat × α → β) (l : List α) (n : Nat) :
    ((List.enumFrom n l).map f).length = l.length := by
  simp [List.length_map, List.enumFrom_length]

/-- The second components of enumerated pairs are list members. -/
lemma snd_mem_of_mem_enumFrom {α : Type _} :
    ∀ {l : List α} {n : Nat} {p : Nat × α}, p ∈ List.enumFrom n l → p.2 ∈ l := by
  intro l
  induction l with
  | nil => intro n p h; simp [List.enumFrom] at h
  | cons a as ih =>
    intro n p h
    simp only [List.enumFrom, List.mem_cons] at h
    rcases h with h | h
    · subst h; simp
    · exact List.mem_cons_of_mem _ (ih h)

/-! ## C3 -/

/-- C3: when the UK geographic scope is active, a hit whose url matches no
configured national domain suffix, whose title+snippet text contains no
national keyword token, and whose url and text contain no exclusion token,
is kept by the relevance filter (permissive default). -/
theorem no_signal_defaults_to_relevant (item : RawItem) (scope : List String)
    (hscope : scope.contains "UK" = true)
    (hdom : uk_domains.any (fun domain => pyIn domain (pyLower item.link)) = false)
    (hkw : uk_keywords.any
      (fun keyword => pyIn keyword (pyLower (item.title ++ " " ++ item.snippet))) = false)
    (hexc : non_uk_indicators.any
      (fun indicator => pyIn indicator (pyLower item.link)
        || pyIn indicator (pyLower (item.title ++ " " ++ item.snippet))) = false) :
    is_uk_relevant item scope = true := by
  unfold is_uk_relevant
  rw [hscope]
  simp only [Bool.not_true, Bool.false_eq_true, if_false]
  rw [hdom]
  simp only [Bool.false_eq_true, if_false]
  rw [hkw]
  simp only [Bool.false_eq_true, if_false]
  rw [hexc]
  simp only [Bool.false_eq_true, if_false]

/-- Concrete instance of C3: a hit with no positive and no negative signal
is kept. -/
def itemNeutral : RawItem :=
  { title := "Global desalination tender"
    link := "https://example.com/water"
    snippet := "New treatment capacity announced"
    displayLink := "example.com" }

/-- Witness for C3 at a concrete ambiguous hit. -/
theorem no_signal_defaults_witness : is_uk_relevant itemNeutral ["UK"] = true :=
  no_signal_defaults_to_relevant itemNeutral ["UK"] (by decide) (by decide)
    (by decide) (by decide)

/-! ## C10 -/

/-- C10: with the UK scope active, any hit whose lowercased title+snippet
contains the two-character substring "uk" anywhere — including inside longer
words — is kept, and since the keyword check runs before the exclusion-token
check, such a hit is kept even when an exclusion token is also present. -/
theorem uk_substring_keyword_overrides_exclusion (item : RawItem) (scope : List String)
    (hscope : scope.contains "UK" = true)
    (hkw : pyIn "uk" (pyLower (item.title ++ " " ++ item.snippet)) = true) :
    is_uk_relevant item scope = true := by
  have hany : uk_keywords.any
      (fun keyword => pyIn keyword (pyLower (item.title ++ " " ++ item.snippet))) = true := by
    refine List.any_eq_true.mpr ⟨"uk", ?_, hkw⟩
    simp [uk_keywords]
  unfold is_uk_relevant
  rw [hscope]
  simp only [Bool.not_true, Bool.false_eq_true, if_false]
  rw [hany]
  simp only [if_true, ite_self]

/-- Concrete instance of C10: "Ukraine" supplies the "uk" substring while
"united states" is an exclusion token. -/
def itemUkraine : RawItem :=
  { title := "Ukraine conflict impact"
    link := "https://news.example.com/world"
    snippet := "United States response"
    displayLink := "news.example.com" }

/-- Witness for C10: the hit text contains "uk" (inside "Ukraine") and the
exclusion token "united states", and the filter keeps it. -/
theorem uk_substring_keyword_witness :
    pyIn "uk" (pyLower (itemUkraine.title ++ " " ++ itemUkraine.snippet)) = true ∧
    pyIn "united states" (pyLower (itemUkraine.title ++ " " ++ itemUkraine.snippet)) = true ∧
    is_uk_relevant itemUkraine ["UK"] = true :=
  ⟨by decide, by decide,
    uk_substring_keyword_overrides_exclusion itemUkraine ["UK"] (by decide) (by decide)⟩

/-! ## C2 -/

/-- A `.gov.uk` hit: kept by the domain check. -/
def itemGov : RawItem :=
  { title := "UK infrastructure investment"
    link := "https://www.gov.uk/government/news/infrastructure"
    snippet := "New funding for water infrastructure."
    displayLink := "www.gov.uk" }

/-- A `.us` hit whose title and snippet contain no UK keyword and whose url
and text contain no exclusion token. -/
def itemUs : RawItem :=
  { title := "Water report"
    link := "https://water.example.us/report"
    snippet := "Infrastructure investment news"
    displayLink := "water.example.us" }

/-- A `.us` hit whose title and snippet contain no UK keyword and whose url
contains the exclusion token "usa". -/
def itemUsExcluded : RawItem :=
  { title := "Water report"
    link := "https://water.usa.us/report"
    snippet := "Infrastructure investment"
    displayLink := "water.usa.us" }

/-- A scan configuration with geographic scope ["UK"]. -/
def cfgUK : ScanConfig := { geographic_scope := ["UK"] }

/-- A search oracle returning the `.gov.uk` hit and the token-free `.us` hit
on every query. -/
def oracleKept : String → Except String (List RawItem) := fun _ => .ok [itemGov, itemUs]

/-- A search oracle returning the `.gov.uk` hit and the "usa"-tokened `.us`
hit on every query. -/
def oracleExcluded : String → Except String (List RawItem) :=
  fun _ => .ok [itemGov, itemUsExcluded]

/-- Counterexample to C2: a `.us` hit whose title and snippet contain no UK
keyword is nonetheless kept when no exclusion token occurs in its url or
text (the filter's permissive default), so retrieval returns two elements,
not one. -/
theorem us_hit_without_exclusion_is_kept :
    is_uk_relevant itemUs ["UK"] = true ∧
    execute_google_search ["water infrastructure"] cfgUK oracleKept =
      [normalizeHit "water infrastructure" itemGov,
       normalizeHit "water infrastructure" itemUs] ∧
    (execute_google_search ["water infrastructure"] cfgUK oracleKept).length = 2 :=
  ⟨by decide, rfl, rfl⟩

/-- C2 (amended): with geographic scope ["UK"], given exactly two raw hits —
one whose url contains ".gov.uk", and one whose url matches no UK domain,
whose title+snippet contains no UK keyword, and whose url or text contains
an exclusion token — the relevance filter keeps exactly the first hit and
drops the second, so retrieval returns a one-element sequence. -/
theorem uk_scope_scenario_keeps_first_drops_excluded_second
    (q : String) (cfg : ScanConfig) (oracle : String → Except String (List RawItem))
    (it1 it2 : RawItem)
    (hscope : cfg.geographic_scope = ["UK"])
    (hocall : oracle (enhancedQuery ["UK"] q) = .ok [it1, it2])
    (h1 : pyIn ".gov.uk" (pyLower it1.link) = true)
    (h2dom : uk_domains.any (fun domain => pyIn domain (pyLower it2.link)) = false)
    (h2kw : uk_keywords.any
      (fun keyword => pyIn keyword (pyLower (it2.title ++ " " ++ it2.snippet))) = false)
    (h2exc : non_uk_indicators.any
      (fun indicator => pyIn indicator (pyLower it2.link)
        || pyIn indicator (pyLower (it2.title ++ " " ++ it2.snippet))) = true) :
    execute_google_search [q] cfg oracle = [normalizeHit q it1] := by
  have hrel1 : is_uk_relevant it1 ["UK"] = true := by
    have hany : uk_domains.any (fun domain => pyIn domain (pyLower it1.link)) = true := by
      refine List.any_eq_true.mpr ⟨".gov.uk", ?_, h1⟩
      simp [uk_domains]
    unfold is_uk_relevant
    rw [show ((["UK"] : List String).contains "UK") = true from by decide]
    simp only [Bool.not_true, Bool.false_eq_true, if_false]
    rw [hany]
    simp only [if_true, ite_self]
  have hrel2 : is_uk_relevant it2 ["UK"] = false := by
    unfold is_uk_relevant
    rw [show ((["UK"] : List String).contains "UK") = true from by decide]
    simp only [Bool.not_true, Bool.false_eq_true, if_false]
    rw [h2dom]
    simp only [Bool.false_eq_true, if_false]
    rw [h2kw]
    simp only [Bool.false_eq_true, if_false]
    rw [h2exc]
    simp only [if_true]
  unfold execute_google_search
  rw [hscope, List.foldl_cons, List.foldl_nil]
  unfold searchStep
  rw [hocall]
  simp only [List.filter_cons, hrel1, hrel2, List.filter_nil, Bool.false_eq_true,
    if_true, if_false, List.map_cons, List.map_nil, List.nil_append]

/-- Witness for the amended C2 at concrete hits: retrieval with the
`.gov.uk` hit and the "usa"-tokened `.us` hit returns exactly the first. -/
theorem uk_scope_scenario_witness :
    execute_google_search ["water infrastructure"] cfgUK oracleExcluded =
      [normalizeHit "water infrastructure" itemGov] :=
  uk_scope_scenario_keeps_first_drops_excluded_second "water infrastructure" cfgUK
    oracleExcluded itemGov itemUsExcluded rfl rfl (by decide) (by decide) (by decide)
    (by decide)

/-! ## C6 -/

/-- C6: a failure on any single query is caught and retrieval continues with
the remaining queries, accumulating the hits of all non-failing queries —
the batch result with the failing query is exactly the batch result without
it. -/
theorem failing_query_does_not_abort_batch (cfg : ScanConfig)
    (oracle : String → Except String (List RawItem))
    (qs1 qs2 : List String) (q : String) (e : String)
    (herr : oracle (enhancedQuery cfg.geographic_scope q) = .error e) :
    execute_google_search (qs1 ++ q :: qs2) cfg oracle =
      execute_google_search (qs1 ++ qs2) cfg oracle := by
  unfold execute_google_search
  rw [List.foldl_append, List.foldl_append, List.foldl_cons]
  congr 1
  unfold searchStep
  rw [herr]

/-- A search oracle that fails on the enhanced form of "failing query" and
answers every other query with the `.gov.uk` hit. -/
def oracleFlaky : String → Except String (List RawItem) :=
  fun s => if s = enhancedQuery ["UK"] "failing query" then .error "HttpError 429"
    else .ok [itemGov]

/-- Witness for C6: with a concrete oracle erroring on the middle query, the
three-query batch returns the same hits as the two-query batch without it. -/
theorem failing_query_witness :
    execute_google_search (["first query"] ++ "failing query" :: ["last query"])
        cfgUK oracleFlaky =
      execute_google_search (["first query"] ++ ["last query"]) cfgUK oracleFlaky :=
  failing_query_does_not_abort_batch cfgUK oracleFlaky ["first query"] ["last query"]
    "failing query" "HttpError 429" (by rfl)

/-! ## C4 -/

/-- A configuration with zero configured components. -/
def emptyScanConfig : ScanConfig :=
  { geo_focus := ""
    sub_sectors := []
    categories := []
    keywords := ""
    geographic_scope := []
    time_range := "" }

/-- C4 (code bug): on an entirely empty configuration, with no trigger and no
refinement keywords, `construct_search_queries` returns exactly one query —
but it is "built assets construction infrastructure", which contains the
default domain terms and no geography term at all.  The branch that would
append the intended default "UK built assets construction market trends
2024" is unreachable, because the built-assets context terms are appended to
`base_components` unconditionally (market_scanner.py:98), so the component
list always has at least three entries. -/
theorem empty_config_fallback_lacks_geography :
    (construct_search_queries none emptyScanConfig "").1 =
      ["built assets construction infrastructure"] ∧
    pyIn "UK" "built assets construction infrastructure" = false ∧
    pyIn "uk" "built assets construction infrastructure" = false ∧
    ∀ (config : ScanConfig) (refinement : String),
      3 ≤ (base_components config refinement).length := by
  refine ⟨rfl, by decide, by decide, ?_⟩
  intro config refinement
  unfold base_components
  simp only [List.length_append, List.length_cons, List.length_nil]
  omega

/-! ## C5 -/

/-- C5: when the model call fails (provider error or parse failure),
extraction returns exactly one fallback record per input hit, positionally:
each with impact level "Medium", relevance score 0.6, summary the raw
snippet content truncated to 200 characters plus "...", and provenance
fields copied from its hit. -/
theorem model_failure_yields_fallback_per_hit (now : Nat) (hits : List SearchHit) :
    (analyze_snippets_with_openai now hits .failure).length = hits.length ∧
    (analyze_snippets_with_openai now hits .failure).map (fun r => r.impact_level) =
      hits.map (fun _ => "Medium") ∧
    (analyze_snippets_with_openai now hits .failure).map (fun r => r.relevance_score) =
      hits.map (fun _ => (3 / 5 : ℚ)) ∧
    (analyze_snippets_with_openai now hits .failure).map (fun r => r.summary) =
      hits.map (fun item => pyTake item.content 200 ++ "...") ∧
    (analyze_snippets_with_openai now hits .failure).map
        (fun r => (r.source, r.url, r.timestamp)) =
      hits.map (fun item => (item.source, item.url, item.date)) := by
  unfold analyze_snippets_with_openai
  refine ⟨enumFrom_map_length _ hits 0, ?_, ?_, ?_, ?_⟩
  · exact enumFrom_map_map (fallbackRecord now) _ _ (fun _ _ => rfl) hits 0
  · exact enumFrom_map_map (fallbackRecord now) _ _ (fun _ _ => rfl) hits 0
  · exact enumFrom_map_map (fallbackRecord now) _ _ (fun _ _ => rfl) hits 0
  · exact enumFrom_map_map (fallbackRecord now) _ _ (fun _ _ => rfl) hits 0

/-! ## C7 -/

/-- C7: in the success path, the record built from the i-th returned insight
takes its source, url and timestamp from the hit at positional index
i mod (number of input hits). -/
theorem insight_provenance_modulo (now : Nat) (hits : List SearchHit)
    (insights : List RawInsight) (i : Nat) (ins : RawInsight) (item : SearchHit)
    (hins : insights.get? i = some ins)
    (hhit : hits.get? (i % hits.length) = some item) :
    ((analyze_snippets_with_openai now hits (.success insights)).get? i).map
      (fun r => (r.source, r.url, r.timestamp)) =
      some (item.source, item.url, item.date) := by
  rw [show analyze_snippets_with_openai now hits (.success insights) =
      (List.enumFrom 0 insights).map (fun p => processInsight now hits p.1 p.2) from rfl]
  rw [enumFrom_map_get?, hins]
  simp only [Option.map_some, Nat.zero_add]
  unfold processInsight
  rw [hhit]
  rfl

/-- Two concrete hits for the C7 witness. -/
def hitA : SearchHit :=
  { title := "Grid upgrade", url := "https://a.example/one", snippet := "sa"
    source := "a.example", date := "2024-05-01", query := "qa", content := "ca" }

/-- Second concrete hit for the C7 witness. -/
def hitB : SearchHit :=
  { title := "Levy change", url := "https://b.example/two", snippet := "sb"
    source := "b.example", date := "2024-06-02", query := "qb", content := "cb" }

/-- Witness for C7: with two hits and three insights, the third insight
(index 2) draws provenance from the hit at index 2 mod 2 = 0. -/
theorem insight_provenance_witness :
    ((analyze_snippets_with_openai 5 [hitA, hitB]
        (.success [{}, {}, {}])).get? 2).map
      (fun r => (r.source, r.url, r.timestamp)) =
      some (hitA.source, hitA.url, hitA.date) :=
  insight_provenance_modulo 5 [hitA, hitB] [{}, {}, {}] 2 {} hitA rfl rfl

/-! ## C8 -/

/-- C8: storing a sequence of records under a category and then reading that
category returns exactly that sequence (same records, same order); a second
store under the same category overwrites the first entirely. -/
theorem alert_store_roundtrip_overwrite (s : SessionAlerts) (category : String)
    (records1 records2 : List AlertRecord) :
    readAlerts (storeAlerts s category records1) category = some records1 ∧
    readAlerts (storeAlerts (storeAlerts s category records1) category records2)
      category = some records2 := by
  constructor <;> simp [readAlerts, storeAlerts]

/-! ## C9 -/

/-- C9: a present contextual trigger — in this system a sourcing-package
trigger, the only override kind the repository defines — short-circuits the
query builder: it returns exactly one query built from the trigger's name
and category, clears the trigger slot (marking it consumed), and a
subsequent call with the cleared slot builds its queries from the standing
configuration instead. -/
theorem context_override_single_query_consumed (t : Trigger) (config : ScanConfig)
    (refinement : String)
    (htype : t.type = "sourcing_package") :
    construct_search_queries (some t) config refinement =
      ([t.name ++ " " ++ t.category ++ " market trends suppliers UK"], none) ∧
    construct_search_queries none config refinement =
      (standingQueries config refinement, none) := by
  refine ⟨?_, rfl⟩
  show (if t.type = "sourcing_package"
      then ([t.name ++ " " ++ t.category ++ " market trends suppliers UK"], none)
      else (standingQueries config refinement, some t)) =
    ([t.name ++ " " ++ t.category ++ " market trends suppliers UK"], none)
  rw [htype]
  simp

/-- Witness for C9 at a concrete sourcing-package trigger and the default
configuration. -/
theorem context_override_witness :
    construct_search_queries
        (some ⟨"sourcing_package", "Pipeline Renewal", "Infrastructure"⟩) {} "" =
      (["Pipeline Renewal Infrastructure market trends suppliers UK"], none) ∧
    construct_search_queries none {} "" = (standingQueries {} "", none) :=
  context_override_single_query_consumed
    ⟨"sourcing_package", "Pipeline Renewal", "Infrastructure"⟩ {} "" rfl

/-! ## C1 -/

/-- The fixed impact-level enumeration (§3 of the specification, and the
High/Medium/Low choice requested by the prompt). -/
def impactLevels : List String := ["High", "Medium", "Low"]

/-- The market-context category enumeration requested by the prompt
(`market_scanner.py:290`): exactly the five names the prompt offers for
market intelligence.  Note the coded default "Market Trends"
(`market_scanner.py:338`) is not among them. -/
def market_categories_enum : List String :=
  ["Infrastructure", "Technology", "Services", "Materials", "Equipment"]

/-- The supplier-context category enumeration requested by the prompt
(`market_scanner.py:290`). -/
def supplier_categories_enum : List String :=
  ["Financial", "Regulatory", "Government Programs", "Innovation", "Competitive"]

/-- The supplier-intelligence category enumeration in the specification's
words (§4.4): the full names abbreviated by the prompt's supplier list.
Like the prompt's two lists, it does not contain "Market Trends". -/
def spec_supplier_categories_enum : List String :=
  ["Financial Intelligence", "Regulatory & Compliance", "Government Programs",
   "Innovation Tracking", "Competitive Intelligence"]

/-- Validity of the values a model insight supplies, relative to a category
enumeration `cats`: a supplied relevance score lies in [0,1], a supplied
impact level is High/Medium/Low, a supplied category is in `cats`.  Absent
fields are unconstrained (the code fills them with defaults). -/
def insightValid (cats : List String) (ins : RawInsight) : Bool :=
  (ins.relevance_score.all fun r => decide ((0 : ℚ) ≤ r) && decide (r ≤ 1)) &&
  (ins.impact_level.all fun l => impactLevels.contains l) &&
  (ins.category.all fun c => cats.contains c)

/-- Validity of a whole model response: failures carry no values; a parsed
response is valid when each of its insights is. -/
def responseValid (cats : List String) : ModelResponse → Bool
  | .failure => true
  | .success insights => insights.all (insightValid cats)

/-- What the code actually guarantees for a record, relative to a category
enumeration `cats`: relevance score in [0,1], impact level in the fixed
enumeration, and a category that is either in `cats` or the coded default
"Market Trends" — the default escapes every requested enumeration, so the
§3 category invariant (`cats.contains r.category` alone) is weakened by
exactly that escape hatch. -/
def recordWellFormed (cats : List String) (r : AlertRecord) : Bool :=
  decide ((0 : ℚ) ≤ r.relevance_score) && decide (r.relevance_score ≤ 1) &&
  impactLevels.contains r.impact_level &&
  (cats.contains r.category || r.category == "Market Trends")

/-- A hit for the C1 counterexample. -/
def hitC1 : SearchHit :=
  { title := "Tender news", url := "https://x.example/t", snippet := "s"
    source := "x.example", date := "Recent", query := "q", content := "c" }

/-- A well-typed model insight carrying values outside every §3 range. -/
def badInsight : RawInsight :=
  { relevance_score := some 2, impact_level := some "Critical", category := some "Alien" }

/-- Counterexample to C1, in two parts.  First, the extractor copies
model-supplied values without validation: a parsed response carrying
relevance score 2, impact level "Critical" and category "Alien" yields a
record violating every §3 invariant (score outside [0,1], impact level
outside {High, Medium, Low}, category outside every context enumeration).
Second, the coded default category "Market Trends" — given to every
fallback record and to every insight without a category, regardless of
scan context — lies outside the supplier enumeration (in the prompt's and
in the specification's naming) and outside the prompt's market list, so
those records violate the context-appropriate category invariant too. -/
theorem analyze_copies_invalid_model_values :
    (analyze_snippets_with_openai 0 [hitC1] (.success [badInsight])).map
      (fun r => (r.relevance_score, r.impact_level, r.category)) =
      [((2 : ℚ), "Critical", "Alien")] ∧
    ¬ ((2 : ℚ) ≤ 1) ∧
    impactLevels.contains "Critical" = false ∧
    market_categories_enum.contains "Alien" = false ∧
    supplier_categories_enum.contains "Alien" = false ∧
    spec_supplier_categories_enum.contains "Alien" = false ∧
    (analyze_snippets_with_openai 0 [hitC1] .failure).map (fun r => r.category) =
      ["Market Trends"] ∧
    (analyze_snippets_with_openai 0 [hitC1] (.success [{}])).map (fun r => r.category) =
      ["Market Trends"] ∧
    supplier_categories_enum.contains "Market Trends" = false ∧
    spec_supplier_categories_enum.contains "Market Trends" = false ∧
    market_categories_enum.contains "Market Trends" = false :=
  ⟨rfl, by norm_num, by decide, by decide, by decide, by decide, rfl, rfl,
    by decide, by decide, by decide⟩

/-- A fallback record is always well-formed in the weakened sense: its
category is exactly the default "Market Trends". -/
lemma fallbackRecord_wellFormed (now i : Nat) (item : SearchHit) (cats : List String) :
    recordWellFormed cats (fallbackRecord now i item) = true := by
  unfold recordWellFormed fallbackRecord
  simp only
  rw [show (impactLevels.contains "Medium") = true from by decide]
  rw [show (("Market Trends" : String) == "Market Trends") = true from by decide]
  rw [show (decide ((0 : ℚ) ≤ 3 / 5)) = true from decide_eq_true (by norm_num)]
  rw [show (decide ((3 / 5 : ℚ) ≤ 1)) = true from decide_eq_true (by norm_num)]
  rw [Bool.or_true]
  rfl

/-- A success-path record built from a valid insight is well-formed in the
weakened sense: its category is the supplied one (in `cats`) or the
default. -/
lemma processInsight_wellFormed (now : Nat) (hits : List SearchHit) (i : Nat)
    (ins : RawInsight) (cats : List String)
    (hval : insightValid cats ins = true) :
    recordWellFormed cats (processInsight now hits i ins) = true := by
  unfold insightValid at hval
  rw [Bool.and_eq_true, Bool.and_eq_true] at hval
  obtain ⟨⟨hrs, himp⟩, hcat⟩ := hval
  unfold recordWellFormed processInsight
  simp only
  have h1 : decide ((0 : ℚ) ≤ ins.relevance_score.getD (7 / 10)) = true ∧
      decide (ins.relevance_score.getD (7 / 10) ≤ 1) = true := by
    cases h : ins.relevance_score with
    | none =>
      exact ⟨decide_eq_true (by norm_num), decide_eq_true (by norm_num)⟩
    | some r =>
      rw [h] at hrs
      simp only [Option.all_some, Bool.and_eq_true] at hrs
      exact ⟨hrs.1, hrs.2⟩
  have h2 : impactLevels.contains (ins.impact_level.getD "Medium") = true := by
    cases h : ins.impact_level with
    | none => decide
    | some l =>
      rw [h] at himp
      simpa using himp
  have h3 : (cats.contains (ins.category.getD "Market Trends")
      || (ins.category.getD "Market Trends") == "Market Trends") = true := by
    cases h : ins.category with
    | none => simp
    | some c =>
      rw [h] at hcat
      simp only [Option.all_some] at hcat
      rw [show Option.getD (some c) "Market Trends" = c from rfl]
      rw [hcat, Bool.true_or]
  rw [h1.1, h1.2, h2, h3]
  rfl

/-- C1 (amended): extraction is total (never raises) and, whenever every
value the model's response supplies is valid — each supplied relevance score
in [0,1], each supplied impact level in {High, Medium, Low}, each supplied
category in the context's enumeration `cats` — every returned record has
relevance score in [0,1], impact level in {High, Medium, Low}, and category
either in `cats` or equal to the coded default "Market Trends".  The
default arm is necessary: it escapes the supplier enumeration and the
prompt's market list, so the unweakened §3 category invariant fails on
fallback records and on insights without a category (see the
counterexample), and supplied values are copied unvalidated, so the
hypothesis on the response is necessary as well. -/
theorem analyze_records_wellformed_of_response_valid (now : Nat) (hits : List SearchHit)
    (resp : ModelResponse) (cats : List String)
    (hresp : responseValid cats resp = true) :
    (analyze_snippets_with_openai now hits resp).all (recordWellFormed cats) = true := by
  cases resp with
  | failure =>
    rw [show analyze_snippets_with_openai now hits .failure =
        (List.enumFrom 0 hits).map (fun p => fallbackRecord now p.1 p.2) from rfl]
    rw [List.all_eq_true]
    intro r hr
    obtain ⟨p, _, hpr⟩ := List.mem_map.mp hr
    rw [← hpr]
    exact fallbackRecord_wellFormed now p.1 p.2 cats
  | success insights =>
    rw [show analyze_snippets_with_openai now hits (.success insights) =
        (List.enumFrom 0 insights).map (fun p => processInsight now hits p.1 p.2) from rfl]
    rw [List.all_eq_true]
    intro r hr
    obtain ⟨p, hpmem, hpr⟩ := List.mem_map.mp hr
    rw [← hpr]
    have hins : insightValid cats p.2 = true := by
      have hmem : p.2 ∈ insights := snd_mem_of_mem_enumFrom hpmem
      exact List.all_eq_true.mp hresp p.2 hmem
    exact processInsight_wellFormed now hits p.1 p.2 cats hins

/-- A model insight with all fields supplied and valid for the market
context. -/
def goodInsight : RawInsight :=
  { title := some "Capacity expansion"
    category := some "Infrastructure"
    impact_level := some "High"
    summary := some "A summary."
    insights := some ["one"]
    recommended_actions := some ["act"]
    suppliers_mentioned := some ["S"]
    relevance_score := some (9 / 10) }

/-- The concrete valid insight passes the validity check. -/
lemma goodInsight_valid : insightValid market_categories_enum goodInsight = true := by
  unfold insightValid goodInsight
  simp only [Option.all_some]
  rw [show (decide ((0 : ℚ) ≤ 9 / 10)) = true from decide_eq_true (by norm_num)]
  rw [show (decide ((9 / 10 : ℚ) ≤ 1)) = true from decide_eq_true (by norm_num)]
  rfl

/-- Witness for the amended C1 at a concrete valid response (one fully
supplied valid insight plus one with every field absent): every record of
the extraction is well-formed for the market enumeration. -/
theorem analyze_records_wellformed_witness :
    (analyze_snippets_with_openai 1 [hitC1]
        (.success [goodInsight, {}])).all (recordWellFormed market_categories_enum) = true :=
  analyze_records_wellformed_of_response_valid 1 [hitC1] (.success [goodInsight, {}])
    market_categories_enum
    (by
      rw [show responseValid market_categories_enum (.success [goodInsight, {}]) =
          [goodInsight, ({} : RawInsight)].all (insightValid market_categories_enum)
        from rfl]
      rw [List.all_cons, goodInsight_valid]
      rfl)
